import Mathlib

/-!
Shallow embedding of `src/server.js` (ELBEQQAL94/playback-buffer), the
stream-lifecycle orchestrator: a Node-Media-Server RTMP ingest whose
`postPublish` / `donePublish` events start and stop one external ffmpeg
transcoding process per stream key, tracked in the global `ffmpegProcesses`
map, plus an Express static file server for the HLS output tree.

The mutable globals of the script are collected into `ServerState`; each
event-handler callback of the source becomes a state-transition function,
and an execution of the event loop is a fold of a list of `Event`s.
Process identities are modelled by a counter `nextPid`: the n-th call of
`spawn` yields pid n.  Signals delivered through `ChildProcess.kill` are
recorded in `kills`; processed `close` events in `closedPids`.
-/

/-- A process signal passed to `ChildProcess.kill`.  The source only ever
passes the string literal `"SIGTERM"` (lines 157 and 250). -/
inductive Sig where
  | SIGTERM
  | SIGKILL
  deriving Repr, DecidableEq

/-- `path.join(__dirname, "media")` (line 8); `__dirname` is opaque. -/
def mediaDir : String := "__dirname/media"

/-- `path.join(mediaDir, "live", streamKey)` (line 44).  None of the call
sites pass components that `path.join` would normalise, so joining is plain
concatenation with the separator. -/
def outputDirFor (streamKey : String) : String :=
  mediaDir ++ "/live/" ++ streamKey

/-- The RTMP input URL built at line 43. -/
def inputUrlFor (streamKey : String) : String :=
  "rtmp://localhost:1935/live/" ++ streamKey

/-- The ffmpeg argument vector of lines 55–85, fully determined by the
stream key. -/
def ffmpegArgsFor (streamKey : String) : List String :=
  ["-i", inputUrlFor streamKey,
   "-c:v", "libx264",
   "-c:a", "aac",
   "-b:v", "2500k",
   "-b:a", "128k",
   "-vf", "scale=1280:720",
   "-preset", "veryfast",
   "-g", "50",
   "-sc_threshold", "0",
   "-f", "hls",
   "-hls_time", "2",
   "-hls_list_size", "5",
   "-hls_flags", "delete_segments",
   "-hls_segment_filename", outputDirFor streamKey ++ "/segment_%03d.ts",
   outputDirFor streamKey ++ "/index.m3u8"]

/-- JavaScript `Map<string, pid>` as an association list with at most one
binding per key (`Map.prototype.set` replaces). -/
def mapSet (k : String) (v : Nat) (m : List (String × Nat)) : List (String × Nat) :=
  (k, v) :: m.filter (fun p => !(p.1 == k))

/-- `Map.prototype.delete`. -/
def mapDelete (k : String) (m : List (String × Nat)) : List (String × Nat) :=
  m.filter (fun p => !(p.1 == k))

/-- `Map.prototype.get`. -/
def mapGet (k : String) (m : List (String × Nat)) : Option Nat :=
  m.lookup k

/-- The mutable state of the script: the `ffmpegProcesses` map (line 16)
together with the observable history needed to state the claims. -/
structure ServerState where
  /-- `const ffmpegProcesses = new Map()` (line 16): stream key ↦ pid. -/
  ffmpegProcesses : List (String × Nat) := []
  /-- Stream keys whose `setTimeout(() => startFFmpegTranscoding(key), 1000)`
  (lines 182–184) has been scheduled but has not fired yet, oldest first. -/
  pendingStarts : List String := []
  /-- Pids handed out by `spawn("ffmpeg", ...)` (line 92), in spawn order. -/
  spawned : List Nat := []
  /-- Signals delivered via `ChildProcess.kill`, in delivery order. -/
  kills : List (Nat × Sig) := []
  /-- Pids whose `close` event has been processed (lines 118–127). -/
  closedPids : List Nat := []
  /-- `console.error` output of the `error` handler (line 115). -/
  errorLog : List String := []
  /-- Output directories ensured to exist by lines 46–50, latest first. -/
  ensuredDirs : List String := []
  /-- `process.exit(0)` has been called (line 254). -/
  exited : Bool := false
  /-- Pid the next `spawn` will yield. -/
  nextPid : Nat := 0
  deriving Repr, DecidableEq

/-- `startFFmpegTranscoding(streamKey)` (lines 39–150): ensures the output
directory exists, spawns ffmpeg unconditionally, and registers the new
process under `streamKey`, overwriting any existing entry.  There is no
validation of `streamKey` and no check for an already-registered job. -/
def startFFmpegTranscoding (streamKey : String) (s : ServerState) : ServerState :=
  { s with
    ensuredDirs := outputDirFor streamKey :: s.ensuredDirs
    spawned := s.spawned ++ [s.nextPid]
    ffmpegProcesses := mapSet streamKey s.nextPid s.ffmpegProcesses
    nextPid := s.nextPid + 1 }

/-- `stopFFmpegTranscoding(streamKey)` (lines 153–160): if a process is
registered under `streamKey`, send it `SIGTERM` and remove the map entry
immediately; otherwise do nothing.  No escalation, no wait for exit. -/
def stopFFmpegTranscoding (streamKey : String) (s : ServerState) : ServerState :=
  match mapGet streamKey s.ffmpegProcesses with
  | some pid =>
      { s with
        kills := s.kills ++ [(pid, Sig.SIGTERM)]
        ffmpegProcesses := mapDelete streamKey s.ffmpegProcesses }
  | none => s

/-- `nms.on("postPublish", ...)` (lines 175–185): the callback takes no
stream argument from the event; it hardcodes `streamKey = "demo"` and
schedules `startFFmpegTranscoding("demo")` one second later.  The
`incomingStream` parameter models the identifier of the stream that
actually published; the handler ignores it. -/
def postPublishHandler (_incomingStream : String) (s : ServerState) : ServerState :=
  { s with pendingStarts := s.pendingStarts ++ ["demo"] }

/-- The oldest pending `setTimeout` callback of `postPublishHandler`
firing (lines 182–184). -/
def timerFire (s : ServerState) : ServerState :=
  match s.pendingStarts with
  | [] => s
  | k :: rest => startFFmpegTranscoding k { s with pendingStarts := rest }

/-- `nms.on("donePublish", ...)` (lines 187–192): hardcodes `"demo"` and
calls `stopFFmpegTranscoding("demo")`.  It does not cancel any pending
`setTimeout` from `postPublish`. -/
def donePublishHandler (_incomingStream : String) (s : ServerState) : ServerState :=
  stopFFmpegTranscoding "demo" s

/-- `ffmpeg.on("close", ...)` (lines 118–127), for the process `pid` that
was spawned for `streamKey`: logs and runs
`ffmpegProcesses.delete(streamKey)` unconditionally — whatever entry is
stored under `streamKey` at that moment is removed, whether or not it is
`pid`.  `code = none` models the `null` exit code after a failed spawn.
No branch respawns a process. -/
def closeHandler (streamKey : String) (pid : Nat) (_code : Option Int) (s : ServerState) : ServerState :=
  { s with
    ffmpegProcesses := mapDelete streamKey s.ffmpegProcesses
    closedPids := s.closedPids ++ [pid] }

/-- `ffmpeg.on("error", ...)` (lines 114–116): `console.error` only; no
registry mutation, no respawn.  Per Node child-process semantics a failed
spawn emits `error` and then `close` (with `null` code). -/
def errorHandler (message : String) (s : ServerState) : ServerState :=
  { s with errorLog := s.errorLog ++ ["FFmpeg Error: " ++ message] }

/-- `process.on("SIGINT", ...)` (lines 244–255): sends `SIGTERM` to every
registered process, then calls `process.exit(0)` synchronously in the same
handler, without waiting for any `close` event. -/
def sigintHandler (s : ServerState) : ServerState :=
  { s with
    kills := s.kills ++ s.ffmpegProcesses.map (fun p => (p.2, Sig.SIGTERM))
    exited := true }

/-- The events the script reacts to. -/
inductive Event where
  /-- A source publishes; carries the publishing stream's identifier
  (which the handler of lines 175–185 ignores). -/
  | publish (streamId : String)
  /-- A source unpublishes. -/
  | unpublish (streamId : String)
  /-- The oldest pending one-second `setTimeout` of `postPublish` fires. -/
  | timer
  /-- The `close` event of the process `pid` spawned for `streamKey`. -/
  | procClose (streamKey : String) (pid : Nat) (code : Option Int)
  /-- The `error` event of a spawned process. -/
  | procError (msg : String)
  /-- The service receives SIGINT. -/
  | sigint
  deriving Repr, DecidableEq

/-- One event-loop turn. -/
def step (s : ServerState) : Event → ServerState
  | .publish p => postPublishHandler p s
  | .unpublish p => donePublishHandler p s
  | .timer => timerFire s
  | .procClose k pid code => closeHandler k pid code s
  | .procError m => errorHandler m s
  | .sigint => sigintHandler s

/-- Initial state of the script. -/
def init : ServerState := {}

/-- Run a whole event trace from the initial state. -/
def runTrace (evs : List Event) : ServerState :=
  evs.foldl step init

/-- A pid is live when it was spawned and has neither been signalled nor
had its exit observed. -/
def livePids (s : ServerState) : List Nat :=
  s.spawned.filter (fun pid =>
    !(s.kills.any (fun kp => kp.1 == pid)) && !(s.closedPids.contains pid))

/-- `".m3u8".endsWith` etc.: JavaScript `String.prototype.endsWith`. -/
def endsWithStr (s suffix : String) : Bool :=
  suffix.data.isSuffixOf s.data

/-- The `setHeaders` callback of `express.static` for `/live`
(lines 210–223): CORS and no-cache headers on every response, then the
content type chosen by the file extension. -/
def liveStaticSetHeaders (filePath : String) : List (String × String) :=
  let base := [("Access-Control-Allow-Origin", "*"),
               ("Cache-Control", "no-cache, no-store, must-revalidate")]
  if endsWithStr filePath ".m3u8" then
    base ++ [("Content-Type", "application/vnd.apple.mpegurl")]
  else if endsWithStr filePath ".ts" then
    base ++ [("Content-Type", "video/mp2t")]
  else
    base

/-! ### Helper lemmas about the map operations -/

theorem mapGet_mapSet_self (k : String) (v : Nat) (m : List (String × Nat)) :
    mapGet k (mapSet k v m) = some v := by
  simp [mapGet, mapSet, List.lookup]

theorem mapGet_mapDelete_self (k : String) (m : List (String × Nat)) :
    mapGet k (mapDelete k m) = none := by
  induction m with
  | nil => rfl
  | cons p t ih =>
    obtain ⟨pk, pv⟩ := p
    by_cases h : pk = k
    · simpa [mapGet, mapDelete, List.filter_cons, h] using ih
    · have hb : (pk == k) = false := by simp [h]
      have hb2 : (k == pk) = false := by simp [Ne.symm h]
      simp only [mapGet, mapDelete] at ih ⊢
      simp [List.filter_cons, hb, hb2, List.lookup, ih]

/-- The state after a `postPublish` for `incoming` whose one-second
`setTimeout` then fires, from a state with no older pending timer. -/
def afterPublishStart (incoming : String) (s : ServerState) : ServerState :=
  step (step s (Event.publish incoming)) Event.timer

/-- The state after a spawn failure for `streamKey` from state `s`: per
Node child-process semantics, `spawn` registers the handle, then the
`error` event fires (lines 114–116), then the `close` event fires with a
`null` exit code (lines 118–127). -/
def spawnFailureRun (streamKey msg : String) (s : ServerState) : ServerState :=
  closeHandler streamKey s.nextPid none
    (errorHandler msg (startFFmpegTranscoding streamKey s))

/-! ### C1 — duplicate publish while a job is live -/

/-- C1 (counterexample): after `Publish, timer` a job for `"demo"` is live
(pid 0 is registered), yet a second `Publish, timer` spawns a second
process: both pid 0 and pid 1 are live afterwards.  This refutes "at most
one live transcoding job exists per identifier; a Publish arriving while a
job for that identifier is live does not spawn a second process". -/
theorem C1_counterexample :
    mapGet "demo" (runTrace [Event.publish "demo", Event.timer]).ffmpegProcesses = some 0
    ∧ livePids (runTrace [Event.publish "demo", Event.timer,
        Event.publish "demo", Event.timer]) = [0, 1] := by
  decide

/-- C1 (amended): a `Publish` while a job for `"demo"` is live does spawn
a second process when the delayed start fires; the registry entry is
overwritten with the new pid, and the previously registered process is
sent no signal — it keeps running, no longer tracked. -/
theorem C1_duplicate_publish_spawns_second (s : ServerState) (p : Nat)
    (hpend : s.pendingStarts = [])
    (hlive : mapGet "demo" s.ffmpegProcesses = some p) :
    (afterPublishStart "demo" s).spawned = s.spawned ++ [s.nextPid]
    ∧ mapGet "demo" (afterPublishStart "demo" s).ffmpegProcesses = some s.nextPid
    ∧ (afterPublishStart "demo" s).kills = s.kills := by
  refine ⟨?_, ?_, ?_⟩ <;>
    simp [afterPublishStart, step, postPublishHandler, timerFire, hpend,
      startFFmpegTranscoding, mapGet_mapSet_self]

/-- C1 (witness): the amended theorem instantiated on the concrete state
reached by `Publish, timer`. -/
theorem C1_witness :
    mapGet "demo" (afterPublishStart "demo"
      (runTrace [Event.publish "demo", Event.timer])).ffmpegProcesses = some 1 := by
  have h := C1_duplicate_publish_spawns_second
    (runTrace [Event.publish "demo", Event.timer]) 0 (by decide) (by decide)
  have hn : (runTrace [Event.publish "demo", Event.timer]).nextPid = 1 := by decide
  rw [hn] at h
  exact h.2.1

/-! ### C2 — jobs are keyed by the hardcoded constant, not the publisher -/

/-- C2 (counterexample): a publish by stream `"cam1"` starts no job keyed
`"cam1"`; the job started is keyed `"demo"` and targets the output
directory derived from `"demo"`.  This refutes "the transcoding job that
gets started is keyed by, and targets the output directory of, that
publishing stream's own identifier". -/
theorem C2_counterexample :
    mapGet "cam1" (runTrace [Event.publish "cam1", Event.timer]).ffmpegProcesses = none
    ∧ mapGet "demo" (runTrace [Event.publish "cam1", Event.timer]).ffmpegProcesses = some 0
    ∧ (runTrace [Event.publish "cam1", Event.timer]).ensuredDirs = [outputDirFor "demo"] := by
  decide

/-- C2 (amended): the publish handler ignores the publishing stream's
identifier; every publish starts a job keyed by the constant `"demo"`,
targeting the output directory derived from `"demo"`. -/
theorem C2_hardcoded_demo (incoming : String) (s : ServerState)
    (hpend : s.pendingStarts = []) :
    mapGet "demo" (afterPublishStart incoming s).ffmpegProcesses = some s.nextPid
    ∧ (afterPublishStart incoming s).ensuredDirs = outputDirFor "demo" :: s.ensuredDirs := by
  constructor <;>
    simp [afterPublishStart, step, postPublishHandler, timerFire, hpend,
      startFFmpegTranscoding, mapGet_mapSet_self]

/-- C2 (witness): the amended theorem instantiated at publisher `"cam1"`
from the initial state. -/
theorem C2_witness :
    mapGet "demo" (afterPublishStart "cam1" init).ffmpegProcesses = some 0 :=
  (C2_hardcoded_demo "cam1" init (by decide)).1

/-! ### C3 — unpublish before job start does not cancel the pending start -/

/-- C3 (counterexample): `Publish` then `Unpublish` before the delayed
start fires does not cancel it: the timer still fires and pid 0 is
spawned — and stays registered with nobody left to stop it.  This refutes
"no external transcoding process is ever spawned for that publish". -/
theorem C3_counterexample :
    (runTrace [Event.publish "demo", Event.unpublish "demo", Event.timer]).spawned = [0]
    ∧ mapGet "demo" (runTrace [Event.publish "demo", Event.unpublish "demo",
        Event.timer]).ffmpegProcesses = some 0 := by
  decide

/-- C3 (amended): `Unpublish` does not cancel the pending delayed start:
the done-publish handler leaves `pendingStarts` untouched, and when the
timer then fires a process is spawned anyway. -/
theorem C3_unpublish_no_cancel (id : String) (s : ServerState)
    (hpend : s.pendingStarts ≠ []) :
    (donePublishHandler id s).pendingStarts = s.pendingStarts
    ∧ (timerFire (donePublishHandler id s)).spawned = s.spawned ++ [s.nextPid] := by
  have hpres : (donePublishHandler id s).pendingStarts = s.pendingStarts
      ∧ (donePublishHandler id s).spawned = s.spawned
      ∧ (donePublishHandler id s).nextPid = s.nextPid := by
    simp only [donePublishHandler, stopFFmpegTranscoding]
    cases mapGet "demo" s.ffmpegProcesses <;> simp
  refine ⟨hpres.1, ?_⟩
  cases hl : (donePublishHandler id s).pendingStarts with
  | nil => rw [hpres.1] at hl; exact absurd hl hpend
  | cons k rest =>
    simp [timerFire, hl, startFFmpegTranscoding, hpres.2.1, hpres.2.2]

/-- C3 (witness): the amended theorem instantiated on the concrete state
reached by a single `Publish`. -/
theorem C3_witness :
    (timerFire (donePublishHandler "demo" (runTrace [Event.publish "demo"]))).spawned = [0] := by
  have h := C3_unpublish_no_cancel "demo" (runTrace [Event.publish "demo"]) (by decide)
  rw [h.2]
  decide

/-! ### C4 — SIGINT exits without waiting for job exits -/

/-- C4 (counterexample): SIGINT while pid 0 is a live job: the handler
sends the stop signal and records `process.exit(0)` (`exited = true`)
although no exit has been observed (`closedPids = []`).  This refutes "the
service process exits only after all jobs' exits have been observed". -/
theorem C4_counterexample :
    (runTrace [Event.publish "demo", Event.timer, Event.sigint]).exited = true
    ∧ (runTrace [Event.publish "demo", Event.timer, Event.sigint]).closedPids = []
    ∧ (runTrace [Event.publish "demo", Event.timer, Event.sigint]).kills
        = [(0, Sig.SIGTERM)] := by
  decide

/-- C4 (amended): on SIGINT every registered job is sent SIGTERM, but the
handler calls `process.exit(0)` synchronously, before any job exit is
observed: `exited` becomes true with `closedPids` unchanged. -/
theorem C4_sigint_kills_all_then_exits (s : ServerState) (k : String) (pid : Nat)
    (h : (k, pid) ∈ s.ffmpegProcesses) :
    (pid, Sig.SIGTERM) ∈ (sigintHandler s).kills
    ∧ (sigintHandler s).exited = true
    ∧ (sigintHandler s).closedPids = s.closedPids := by
  refine ⟨?_, rfl, rfl⟩
  simp only [sigintHandler]
  exact List.mem_append.mpr (Or.inr (List.mem_map.mpr ⟨(k, pid), h, rfl⟩))

/-- C4 (witness): the amended theorem instantiated on the concrete state
reached by `Publish, timer`. -/
theorem C4_witness :
    ((0 : Nat), Sig.SIGTERM)
      ∈ (sigintHandler (runTrace [Event.publish "demo", Event.timer])).kills :=
  (C4_sigint_kills_all_then_exits (runTrace [Event.publish "demo", Event.timer])
    "demo" 0 (by decide)).1

/-! ### C5 — no identifier validation -/

/-- C5 (counterexample): the empty identifier is malformed (the claim
requires non-empty identifiers), yet `startFFmpegTranscoding ""` is not
rejected: it ensures a directory and spawns a process.  This refutes
"a malformed identifier is rejected before any side effect". -/
theorem C5_counterexample :
    (startFFmpegTranscoding "" init).spawned = [0]
    ∧ (startFFmpegTranscoding "" init).ensuredDirs = [mediaDir ++ "/live/"] := by
  decide

/-- C5 (amended): no identifier validation exists: for every identifier
whatsoever, `startFFmpegTranscoding` ensures the output directory obtained
by concatenating the raw identifier onto the media root and spawns a
process; there is no rejection path.  (Only the hardcoding of `"demo"` in
the event handlers keeps unsafe identifiers out in practice.) -/
theorem C5_no_validation (streamKey : String) (s : ServerState) :
    (startFFmpegTranscoding streamKey s).spawned = s.spawned ++ [s.nextPid]
    ∧ (startFFmpegTranscoding streamKey s).ensuredDirs
        = outputDirFor streamKey :: s.ensuredDirs
    ∧ outputDirFor streamKey = mediaDir ++ "/live/" ++ streamKey :=
  ⟨rfl, rfl, rfl⟩

/-! ### C6 — abnormal exit returns the stream to Idle, no restart -/

/-- C6 (confirmed): when the process spawned for `streamKey` exits with a
non-zero code (e.g. 137), the close handler removes the registry entry for
that key, and no replacement process is spawned or scheduled: `spawned`
and `pendingStarts` are unchanged. -/
theorem C6_abnormal_exit_to_idle (s : ServerState) (streamKey : String)
    (pid : Nat) (c : Int) (hc : c ≠ 0) :
    mapGet streamKey (closeHandler streamKey pid (some c) s).ffmpegProcesses = none
    ∧ (closeHandler streamKey pid (some c) s).spawned = s.spawned
    ∧ (closeHandler streamKey pid (some c) s).pendingStarts = s.pendingStarts := by
  refine ⟨?_, rfl, rfl⟩
  simpa [closeHandler] using mapGet_mapDelete_self streamKey s.ffmpegProcesses

/-- C6 (witness): exit code 137 for the job live after `Publish, timer`. -/
theorem C6_witness :
    mapGet "demo" (closeHandler "demo" 0 (some 137)
      (runTrace [Event.publish "demo", Event.timer])).ffmpegProcesses = none :=
  (C6_abnormal_exit_to_idle (runTrace [Event.publish "demo", Event.timer])
    "demo" 0 137 (by decide)).1

/-! ### C7 — stop never escalates beyond the graceful signal -/

/-- Every signal the script ever delivers is `SIGTERM`: one event-loop
step preserves the property that `kills` holds only `SIGTERM` entries. -/
theorem kills_step_sigterm (s : ServerState) (e : Event)
    (hs : ∀ p ∈ s.kills, p.2 = Sig.SIGTERM) :
    ∀ p ∈ (step s e).kills, p.2 = Sig.SIGTERM := by
  cases e with
  | publish id => exact hs
  | unpublish id =>
    simp only [step, donePublishHandler, stopFFmpegTranscoding]
    split
    · intro p hp
      rcases List.mem_append.mp hp with h | h
      · exact hs p h
      · rw [List.mem_singleton.mp h]
    · exact hs
  | timer =>
    simp only [step, timerFire]
    split
    · exact hs
    · exact hs
  | procClose k pid code => exact hs
  | procError m => exact hs
  | sigint =>
    simp only [step, sigintHandler]
    intro p hp
    rcases List.mem_append.mp hp with h | h
    · exact hs p h
    · obtain ⟨q, hq, rfl⟩ := List.mem_map.mp h
      rfl

/-- Folding any event list preserves the `SIGTERM`-only property. -/
theorem kills_foldl_sigterm (evs : List Event) (s : ServerState)
    (hs : ∀ p ∈ s.kills, p.2 = Sig.SIGTERM) :
    ∀ p ∈ (evs.foldl step s).kills, p.2 = Sig.SIGTERM := by
  induction evs generalizing s with
  | nil => exact hs
  | cons e t ih => exact ih (step s e) (kills_step_sigterm s e hs)

/-- C7 (counterexample): `Publish, timer, Unpublish` then SIGINT, with the
process never exiting (`closedPids = []`): the only signal ever sent to
pid 0 is the one graceful `SIGTERM` of `stopFFmpegTranscoding`, and the
registry entry is already gone, so no mechanism is left that could
escalate.  This refutes "if the process has not exited within the grace
timeout, [stop] escalates to forceful termination of the process". -/
theorem C7_counterexample :
    (runTrace [Event.publish "demo", Event.timer, Event.unpublish "demo",
        Event.sigint]).kills = [(0, Sig.SIGTERM)]
    ∧ (runTrace [Event.publish "demo", Event.timer, Event.unpublish "demo",
        Event.sigint]).closedPids = []
    ∧ (runTrace [Event.publish "demo", Event.timer, Event.unpublish "demo",
        Event.sigint]).ffmpegProcesses = [] := by
  decide

/-- C7 (amended): `stop` sends a single graceful `SIGTERM` and deletes the
registry entry at once; no forceful escalation exists anywhere — in every
execution of the script, every signal ever delivered is `SIGTERM`. -/
theorem C7_stop_only_graceful :
    (∀ (streamKey : String) (s : ServerState) (pid : Nat),
      mapGet streamKey s.ffmpegProcesses = some pid →
        (stopFFmpegTranscoding streamKey s).kills = s.kills ++ [(pid, Sig.SIGTERM)]
        ∧ mapGet streamKey (stopFFmpegTranscoding streamKey s).ffmpegProcesses = none)
    ∧ ∀ (evs : List Event), ∀ p ∈ (runTrace evs).kills, p.2 = Sig.SIGTERM := by
  constructor
  · intro streamKey s pid h
    constructor
    · simp [stopFFmpegTranscoding, h]
    · simpa [stopFFmpegTranscoding, h]
        using mapGet_mapDelete_self streamKey s.ffmpegProcesses
  · intro evs
    exact kills_foldl_sigterm evs init (by intro p hp; cases hp)

/-- C7 (witness): the stop part of the amended theorem instantiated on the
state after `Publish, timer`. -/
theorem C7_witness :
    (stopFFmpegTranscoding "demo" (runTrace [Event.publish "demo", Event.timer])).kills
      = [(0, Sig.SIGTERM)] := by
  rw [(C7_stop_only_graceful.1 "demo" (runTrace [Event.publish "demo", Event.timer])
    0 (by decide)).1]
  decide

/-! ### C8 — spawn failure: surfaced, aborted, not retried -/

/-- C8 (confirmed): when the ffmpeg executable cannot be launched, Node
emits `error` and then `close` (with `null` exit code) on the handle that
line 94 had just registered.  After both handlers run, the failure has
been surfaced on the error log, no handle remains registered for the
identifier, and no further process was spawned (the single failed `spawn`
is the only one — no retry). -/
theorem C8_spawn_failure_no_retry (streamKey msg : String) (s : ServerState) :
    mapGet streamKey (spawnFailureRun streamKey msg s).ffmpegProcesses = none
    ∧ (spawnFailureRun streamKey msg s).spawned = s.spawned ++ [s.nextPid]
    ∧ (spawnFailureRun streamKey msg s).errorLog
        = s.errorLog ++ ["FFmpeg Error: " ++ msg]
    ∧ (spawnFailureRun streamKey msg s).pendingStarts = s.pendingStarts := by
  refine ⟨?_, rfl, rfl, rfl⟩
  simpa [spawnFailureRun, closeHandler, errorHandler, startFFmpegTranscoding]
    using mapGet_mapDelete_self streamKey
      (errorHandler msg (startFFmpegTranscoding streamKey s)).ffmpegProcesses

/-! ### C9 — headers served from the output tree -/

/-- C9 (confirmed): every response from the `/live` static tree carries
`Access-Control-Allow-Origin: *` and
`Cache-Control: no-cache, no-store, must-revalidate`; manifest files
(`.m3u8`) additionally get the playlist media type and segment files
(`.ts`) the segment media type. -/
theorem C9_live_headers (filePath : String) :
    ("Access-Control-Allow-Origin", "*") ∈ liveStaticSetHeaders filePath
    ∧ ("Cache-Control", "no-cache, no-store, must-revalidate")
        ∈ liveStaticSetHeaders filePath
    ∧ (endsWithStr filePath ".m3u8" = true →
        ("Content-Type", "application/vnd.apple.mpegurl") ∈ liveStaticSetHeaders filePath)
    ∧ (endsWithStr filePath ".ts" = true →
        ("Content-Type", "video/mp2t") ∈ liveStaticSetHeaders filePath) := by
  by_cases h1 : endsWithStr filePath ".m3u8"
  · have h2 : endsWithStr filePath ".ts" = false := by
      by_cases h2 : endsWithStr filePath ".ts"
      · exfalso
        rw [endsWithStr, List.isSuffixOf_iff_suffix] at h1 h2
        rcases List.suffix_or_suffix_of_suffix h1 h2 with hs | hs
        · exact absurd hs (by decide)
        · exact absurd hs (by decide)
      · simpa using h2
    simp [liveStaticSetHeaders, h1, h2]
  · by_cases h2 : endsWithStr filePath ".ts"
    · simp [liveStaticSetHeaders, h1, h2]
    · simp [liveStaticSetHeaders, h1, h2]

/-- C9 (witness): the content-type implications discharged at a concrete
manifest path and a concrete segment path. -/
theorem C9_witness :
    ("Content-Type", "application/vnd.apple.mpegurl")
        ∈ liveStaticSetHeaders "index.m3u8"
    ∧ ("Content-Type", "video/mp2t") ∈ liveStaticSetHeaders "segment_000.ts" :=
  ⟨(C9_live_headers "index.m3u8").2.2.1 (by decide),
   (C9_live_headers "segment_000.ts").2.2.2 (by decide)⟩

/-! ### C10 — stop forgets the handle; the late close deletes the newer one -/

/-- C10 (confirmed): after `stopFFmpegTranscoding streamKey` returns, the
registry holds no entry for `streamKey` although the stopped process's
exit has not been observed (`closedPids` unchanged); and the close handler
of the old process later deletes whatever entry is then stored under the
key — in particular the handle of a newer process started for the same
identifier in the meantime. -/
theorem C10_stop_forgets_close_deletes_newer (s : ServerState) (streamKey : String)
    (pid : Nat) (h : mapGet streamKey s.ffmpegProcesses = some pid) :
    mapGet streamKey (stopFFmpegTranscoding streamKey s).ffmpegProcesses = none
    ∧ (stopFFmpegTranscoding streamKey s).closedPids = s.closedPids
    ∧ ∀ (s' : ServerState) (newerPid : Nat) (c : Option Int),
        mapGet streamKey s'.ffmpegProcesses = some newerPid →
        mapGet streamKey (closeHandler streamKey pid c s').ffmpegProcesses = none := by
  refine ⟨?_, ?_, ?_⟩
  · simpa [stopFFmpegTranscoding, h]
      using mapGet_mapDelete_self streamKey s.ffmpegProcesses
  · simp [stopFFmpegTranscoding, h]
  · intro s' newerPid c hnew
    simpa [closeHandler] using mapGet_mapDelete_self streamKey s'.ffmpegProcesses

/-- C10 (witness): pid 0 is stopped, a newer pid 1 is started for the same
key, and pid 0's late close event deletes pid 1's registry entry. -/
theorem C10_witness :
    mapGet "demo" (closeHandler "demo" 0 (some 0)
      (runTrace [Event.publish "demo", Event.timer, Event.unpublish "demo",
        Event.publish "demo", Event.timer])).ffmpegProcesses = none :=
  (C10_stop_forgets_close_deletes_newer
      (runTrace [Event.publish "demo", Event.timer]) "demo" 0 (by decide)).2.2
    (runTrace [Event.publish "demo", Event.timer, Event.unpublish "demo",
      Event.publish "demo", Event.timer]) 1 (some 0) (by decide)
